import Mathlib

/-!
Verification of the asynchronous job-completion waiter of the ONTAP ZAPI
client (`WaitForAsyncResponse` / `checkForJobCompletion` /
`asyncResponseBackoff`), shallowly embedded from the Go source.

Modelling conventions:
* Go pointers that may be nil become `Option`; dereferencing `none`
  (a runtime panic in Go) is made explicit by an `abort` outcome.
* The remote status endpoint is a stream `Nat → QueryResult` giving the
  result of the n-th `JobGetIterStatus` call; the elapsed-time budget of
  the backoff loop is abstracted to a fuel value counting how many
  retries `NextBackOff` still permits before returning `Stop`.
* Errors built with `fmt.Errorf` are represented by constructors carrying
  exactly the data interpolated into the format string.
-/

/-- Embeds `azgo.JobInfoType` restricted to the one accessor the waiter
uses, `JobState()`. -/
structure JobInfoType where
  jobState : String
deriving DecidableEq, Repr

/-- Embeds the `AttributesList` of `azgo.JobGetIterResponseResult`:
a slice of job-info entries, indexed by the waiter at position 0. -/
structure JobAttributesList where
  JobInfoPtr : List JobInfoType
deriving DecidableEq, Repr

/-- Embeds `azgo.JobGetIterResponseResult`: the result status attribute and
the optional (nil-able) attributes list. -/
structure JobGetIterResponseResult where
  ResultStatusAttr : String
  AttributesListPtr : Option JobAttributesList
deriving DecidableEq, Repr

/-- Embeds `azgo.JobGetIterResponse` (one `Result` field). -/
structure JobGetIterResponse where
  Result : JobGetIterResponseResult
deriving DecidableEq, Repr

/-- One result of `d.JobGetIterStatus(jobId)`: the Go call returns a
possibly-nil `*azgo.JobGetIterResponse` together with a possibly-nil
error; `queryErr = true` embeds a non-nil error. -/
structure QueryResult where
  response : Option JobGetIterResponse
  queryErr : Bool
deriving DecidableEq, Repr

/-- The errors `checkJobFinished` can build, one constructor per
`fmt.Errorf` site, carrying the interpolated values. -/
inductive PollError where
  /-- Message "error occurred getting job status for job ID %d: %v" -/
  | queryError (jobId : Int) (result : JobGetIterResponseResult)
  /-- Message "failed to get job status for job ID %d: %v " (status not "passed") -/
  | statusNotPassed (jobId : Int) (result : JobGetIterResponseResult)
  /-- Message "failed to get job status for job ID %d: %v " (nil attributes list) -/
  | noAttributes (jobId : Int) (result : JobGetIterResponseResult)
  /-- Message "job %d failed to complete. job state: %v" -/
  | jobFailed (jobId : Int) (jobState : String)
  /-- Message "job %d is not yet completed. job state: %v" -/
  | notYetCompleted (jobId : Int) (jobState : String)
deriving DecidableEq, Repr

/-- What one execution of the `checkJobFinished` closure does. -/
inductive PollOutcome where
  /-- returned nil -/
  | ok
  /-- returned a plain (retryable) error -/
  | retry (e : PollError)
  /-- returned `backoff.Permanent(err)`: halts the backoff loop -/
  | halt (e : PollError)
  /-- a runtime panic: nil-pointer dereference or index out of range -/
  | abort
deriving DecidableEq, Repr

/-- Embeds the `checkJobFinished` closure of `checkForJobCompletion`,
applied to the result of one `JobGetIterStatus` call.  Field accesses on
a nil response, and the unchecked `JobInfoPtr[0]`, become `abort`. -/
def checkJobFinished (jobId : Int) (q : QueryResult) : PollOutcome :=
  match q.response, q.queryErr with
  | none, _ => .abort
  | some resp, true => .retry (.queryError jobId resp.Result)
  | some resp, false =>
    if resp.Result.ResultStatusAttr ≠ "passed" then
      .retry (.statusNotPassed jobId resp.Result)
    else
      match resp.Result.AttributesListPtr with
      | none => .retry (.noAttributes jobId resp.Result)
      | some attrs =>
        match attrs.JobInfoPtr with
        | [] => .abort
        | info :: _ =>
          let jobState := info.jobState
          if jobState = "failure" ∨ jobState = "error" ∨ jobState = "quit"
              ∨ jobState = "dead" then
            .halt (.jobFailed jobId jobState)
          else if jobState ≠ "success" then
            .retry (.notYetCompleted jobId jobState)
          else
            .ok

/-- The value `backoff.RetryNotify` hands back to `checkForJobCompletion`. -/
inductive RetryResult where
  /-- the operation returned nil -/
  | success
  /-- the operation returned a permanent error, which halts the loop -/
  | permanentErr (e : PollError)
  /-- `NextBackOff` returned `Stop` (elapsed time exceeded
  `MaxElapsedTime`) while the operation kept returning a retryable
  error; the last such error is handed back -/
  | exhausted (e : PollError)
  /-- a panic inside the operation propagates -/
  | aborted
deriving DecidableEq, Repr

/-- Embeds `backoff.RetryNotify(checkJobFinished, inProgressBackoff, ...)`:
runs the operation on successive query results, retrying on retryable
errors while fuel remains, and also counts the status queries issued.
The operation always runs at least once; `fuel` is how many retries the
backoff budget still allows. -/
def retryNotify (jobId : Int) : Nat → (Nat → QueryResult) → RetryResult × Nat
  | 0, queries =>
    match checkJobFinished jobId (queries 0) with
    | .ok => (.success, 1)
    | .abort => (.aborted, 1)
    | .halt e => (.permanentErr e, 1)
    | .retry e => (.exhausted e, 1)
  | fuel + 1, queries =>
    match checkJobFinished jobId (queries 0) with
    | .ok => (.success, 1)
    | .abort => (.aborted, 1)
    | .halt e => (.permanentErr e, 1)
    | .retry _ =>
      let r := retryNotify jobId fuel (fun i => queries (i + 1))
      (r.1, r.2 + 1)

/-- The error `checkForJobCompletion` returns to its caller. -/
inductive JobError where
  /-- Message "job Id %d failed to complete successfully" -/
  | jobFailedToComplete (jobId : Int)
  /-- A runtime panic propagating out of the backoff loop -/
  | runtimeFault
deriving DecidableEq, Repr

/-- Embeds `checkForJobCompletion`: runs the backoff retry loop and maps
any non-nil error from it to the single generic error
"job Id %d failed to complete successfully".  Also returns the number of
status queries issued. -/
def checkForJobCompletion (jobId : Int) (queries : Nat → QueryResult)
    (fuel : Nat) : Option JobError × Nat :=
  match retryNotify jobId fuel queries with
  | (.success, n) => (none, n)
  | (.aborted, n) => (some .runtimeFault, n)
  | (.permanentErr _, n) => (some (.jobFailedToComplete jobId), n)
  | (.exhausted _, n) => (some (.jobFailedToComplete jobId), n)

/-- A response body whose result is `passed` and carries a single
job-info entry with the given job state. -/
def stateRespBody (s : String) : JobGetIterResponse :=
  { Result := { ResultStatusAttr := "passed",
                AttributesListPtr := some { JobInfoPtr := [{ jobState := s }] } } }

/-- A query result whose response is `passed` with the given single job
state — the shape a healthy status endpoint returns. -/
def stateResp (s : String) : QueryResult :=
  { response := some (stateRespBody s), queryErr := false }

/-- Stream element observing state "success". -/
def successResp : QueryResult := stateResp "success"

/-- Stream element observing terminal state "failure". -/
def failureResp : QueryResult := stateResp "failure"

/-- Stream element observing non-terminal state "running". -/
def runningResp : QueryResult := stateResp "running"

/-- Embeds the `ZapiAsyncResult` struct: jobId, status, errorCode as
extracted by `NewZapiAsyncResult`. -/
structure ZapiAsyncResult where
  jobId : Int
  status : String
  errorCode : Int
deriving DecidableEq, Repr

/-- Embeds the `ZapiError` struct (status, reason, code), the error type
`NewZapiAsyncResult` returns when its reflection-based extraction
panics. -/
structure ZapiError where
  status : String
  reason : String
  code : String
deriving DecidableEq, Repr

/-- The errors `WaitForAsyncResponse` can return. -/
inductive WaitError where
  /-- The error of `NewZapiAsyncResult`, returned unchanged -/
  | extraction (e : ZapiError)
  /-- Message "result status is failed with errorCode %d" -/
  | resultFailed (errorCode : Int)
  /-- The non-nil error of `checkForJobCompletion`, returned unchanged -/
  | asyncResponse (e : JobError)
deriving DecidableEq, Repr

/-- Embeds `WaitForAsyncResponse`.  The reflection-based
`NewZapiAsyncResult` call is abstracted to its outcome `extract`
(either the extracted `ZapiAsyncResult` or its error), since the
claims treat the submission result as opaque.  The second component
counts the job-status queries issued. -/
def WaitForAsyncResponse (extract : Except ZapiError ZapiAsyncResult)
    (queries : Nat → QueryResult) (fuel : Nat) : Option WaitError × Nat :=
  match extract with
  | .error e => (some (.extraction e), 0)
  | .ok asyncResult =>
    if asyncResult.status = "in_progress" then
      match checkForJobCompletion asyncResult.jobId queries fuel with
      | (some e, n) => (some (.asyncResponse e), n)
      | (none, n) => (none, n)
    else if asyncResult.status = "failed" then
      (some (.resultFailed asyncResult.errorCode), 0)
    else
      (none, 0)

/-! ### The backoff configuration (`asyncResponseBackoff`) -/

/-- One nanosecond units: `time.Duration` is an integer nanosecond count. -/
def Millisecond : Int := 1000000

/-- `time.Second` in nanoseconds. -/
def Second : Int := 1000 * Millisecond

/-- `time.Minute` in nanoseconds. -/
def Minute : Int := 60 * Second

/-- Embeds the fields of `backoff.ExponentialBackOff` the waiter's claims
touch.  Durations are nanosecond counts; the two float factors are
modelled as rationals. -/
structure ExponentialBackOff where
  InitialInterval : Int
  RandomizationFactor : ℚ
  Multiplier : ℚ
  MaxInterval : Int
  MaxElapsedTime : Int
deriving DecidableEq, Repr

/-- The documented defaults of `backoff.NewExponentialBackOff` from the
`github.com/cenkalti/backoff/v4` dependency (initial interval 500 ms,
randomization factor 0.5, multiplier 1.5, max interval 60 s, max
elapsed time 15 min); the dependency's source is outside this
repository. -/
def NewExponentialBackOff : ExponentialBackOff :=
  { InitialInterval := 500 * Millisecond,
    RandomizationFactor := 1 / 2,
    Multiplier := 3 / 2,
    MaxInterval := 60 * Second,
    MaxElapsedTime := 15 * Minute }

/-- Embeds `asyncResponseBackoff`: starts from the library defaults and
overrides the initial interval, multiplier, randomization factor and
maximum elapsed time. -/
def asyncResponseBackoff (maxWaitTime : Int) : ExponentialBackOff :=
  { NewExponentialBackOff with
    InitialInterval := 1 * Second,
    Multiplier := 2,
    RandomizationFactor := 1 / 10,
    MaxElapsedTime := maxWaitTime }

/-- The nominal (un-randomized) current interval before the n-th retry
delay (0-indexed), per the dependency's documented semantics: it starts
at `InitialInterval` and is multiplied by `Multiplier` after each call,
capped at `MaxInterval`. -/
def nominalInterval (b : ExponentialBackOff) : Nat → ℚ
  | 0 => (b.InitialInterval : ℚ)
  | n + 1 => min (nominalInterval b n * b.Multiplier) ((b.MaxInterval : ℚ))

/-- The randomized delay drawn from a current interval, per the
dependency's documented semantics: a value uniformly placed (by the
random sample `ρ ∈ [0,1]`) in
`[interval·(1−r), interval·(1+r)]` for randomization factor `r`. -/
def getRandomValueFromInterval (r ρ interval : ℚ) : ℚ :=
  (interval - r * interval) + ρ * (2 * (r * interval))

/-! ### Helper classifiers used by the theorems -/

/-- True exactly when one execution of the closure returned a plain
(retryable) error, so the backoff loop keeps polling. -/
def isRetryOutcome : PollOutcome → Bool
  | .retry _ => true
  | _ => false

/-- The job state one poll actually reads, when the query result has the
healthy shape that lets the closure reach the `JobState()` read: no
query error, a non-nil response with status "passed", a non-nil
attributes list and a non-empty job-info slice. -/
def observedState (q : QueryResult) : Option String :=
  match q.response, q.queryErr with
  | some resp, false =>
    if resp.Result.ResultStatusAttr = "passed" then
      match resp.Result.AttributesListPtr with
      | some attrs =>
        match attrs.JobInfoPtr with
        | info :: _ => some info.jobState
        | [] => none
      | none => none
    else none
  | _, _ => none

/-! ### Lemmas about the retry loop -/

lemma isRetryOutcome_iff (o : PollOutcome) :
    isRetryOutcome o = true ↔ ∃ e, o = .retry e := by
  cases o <;> simp [isRetryOutcome]

lemma retryNotify_halt (jobId : Int) :
    ∀ (k fuel : Nat) (queries : Nat → QueryResult) (e : PollError),
    (∀ i, i < k → isRetryOutcome (checkJobFinished jobId (queries i)) = true) →
    k ≤ fuel →
    checkJobFinished jobId (queries k) = .halt e →
    retryNotify jobId fuel queries = (.permanentErr e, k + 1) := by
  intro k
  induction k with
  | zero =>
    intro fuel queries e _ _ hhalt
    cases fuel with
    | zero => simp [retryNotify, hhalt]
    | succ fuel' => simp [retryNotify, hhalt]
  | succ k ih =>
    intro fuel queries e hreach hfuel hhalt
    obtain ⟨e0, he0⟩ := (isRetryOutcome_iff _).1 (hreach 0 (Nat.succ_pos k))
    cases fuel with
    | zero => omega
    | succ fuel' =>
      have hrec := ih fuel' (fun i => queries (i + 1)) e
        (fun i hi => hreach (i + 1) (by omega)) (by omega) hhalt
      simp [retryNotify, he0, hrec]

lemma retryNotify_ok (jobId : Int) :
    ∀ (k fuel : Nat) (queries : Nat → QueryResult),
    (∀ i, i < k → isRetryOutcome (checkJobFinished jobId (queries i)) = true) →
    k ≤ fuel →
    checkJobFinished jobId (queries k) = .ok →
    retryNotify jobId fuel queries = (.success, k + 1) := by
  intro k
  induction k with
  | zero =>
    intro fuel queries _ _ hok
    cases fuel with
    | zero => simp [retryNotify, hok]
    | succ fuel' => simp [retryNotify, hok]
  | succ k ih =>
    intro fuel queries hreach hfuel hok
    obtain ⟨e0, he0⟩ := (isRetryOutcome_iff _).1 (hreach 0 (Nat.succ_pos k))
    cases fuel with
    | zero => omega
    | succ fuel' =>
      have hrec := ih fuel' (fun i => queries (i + 1))
        (fun i hi => hreach (i + 1) (by omega)) (by omega) hok
      simp [retryNotify, he0, hrec]

lemma retryNotify_exhausted (jobId : Int) :
    ∀ (fuel : Nat) (queries : Nat → QueryResult),
    (∀ i, i ≤ fuel → isRetryOutcome (checkJobFinished jobId (queries i)) = true) →
    ∃ e, retryNotify jobId fuel queries = (.exhausted e, fuel + 1) := by
  intro fuel
  induction fuel with
  | zero =>
    intro queries hall
    obtain ⟨e0, he0⟩ := (isRetryOutcome_iff _).1 (hall 0 (Nat.le_refl 0))
    exact ⟨e0, by simp [retryNotify, he0]⟩
  | succ fuel ih =>
    intro queries hall
    obtain ⟨e0, he0⟩ := (isRetryOutcome_iff _).1 (hall 0 (Nat.zero_le _))
    obtain ⟨e, he⟩ := ih (fun i => queries (i + 1)) (fun i hi => hall (i + 1) (by omega))
    exact ⟨e, by simp [retryNotify, he0, he]⟩

lemma retryNotify_count_pos (jobId : Int) :
    ∀ (fuel : Nat) (queries : Nat → QueryResult),
    1 ≤ (retryNotify jobId fuel queries).2 := by
  intro fuel
  cases fuel with
  | zero =>
    intro queries
    cases h : checkJobFinished jobId (queries 0) <;> simp [retryNotify, h]
  | succ fuel' =>
    intro queries
    cases h : checkJobFinished jobId (queries 0) <;> simp [retryNotify, h]

lemma retryNotify_inv (jobId : Int) :
    ∀ (fuel : Nat) (queries : Nat → QueryResult),
    (∀ i, i + 1 < (retryNotify jobId fuel queries).2 →
      isRetryOutcome (checkJobFinished jobId (queries i)) = true) ∧
    ((retryNotify jobId fuel queries).1 = .success →
      checkJobFinished jobId (queries ((retryNotify jobId fuel queries).2 - 1)) = .ok) := by
  intro fuel
  induction fuel with
  | zero =>
    intro queries
    cases h : checkJobFinished jobId (queries 0) <;>
      simp [retryNotify, h]
  | succ fuel ih =>
    intro queries
    cases h : checkJobFinished jobId (queries 0) with
    | ok => simp [retryNotify, h]
    | halt e => simp [retryNotify, h]
    | abort => simp [retryNotify, h]
    | retry e =>
      obtain ⟨ih1, ih2⟩ := ih (fun i => queries (i + 1))
      have hpos := retryNotify_count_pos jobId fuel (fun i => queries (i + 1))
      constructor
      · intro i hi
        simp only [retryNotify, h] at hi
        cases i with
        | zero => simp [h, isRetryOutcome]
        | succ j =>
          have := ih1 j (by omega)
          simpa using this
      · intro hsuc
        simp only [retryNotify, h] at hsuc ⊢
        have := ih2 hsuc
        have harith : (retryNotify jobId fuel (fun i => queries (i + 1))).2 + 1 - 1 =
            ((retryNotify jobId fuel (fun i => queries (i + 1))).2 - 1) + 1 := by omega
        rw [harith]
        simpa using this

lemma checkForJobCompletion_eq_retryNotify (jobId : Int)
    (queries : Nat → QueryResult) (fuel : Nat) :
    (checkForJobCompletion jobId queries fuel).2 = (retryNotify jobId fuel queries).2 ∧
    ((checkForJobCompletion jobId queries fuel).1 = none ↔
      (retryNotify jobId fuel queries).1 = .success) := by
  rcases hr : retryNotify jobId fuel queries with ⟨r, n⟩
  unfold checkForJobCompletion
  rw [hr]
  cases r <;> simp

lemma checkJobFinished_ok_iff (jobId : Int) (q : QueryResult) :
    checkJobFinished jobId q = .ok ↔ observedState q = some "success" := by
  obtain ⟨resp, qe⟩ := q
  cases resp with
  | none => cases qe <;> simp [checkJobFinished, observedState]
  | some r =>
    cases qe with
    | true => simp [checkJobFinished, observedState]
    | false =>
      by_cases hp : r.Result.ResultStatusAttr = "passed"
      · cases hal : r.Result.AttributesListPtr with
        | none => simp [checkJobFinished, observedState, hp, hal]
        | some attrs =>
          cases hji : attrs.JobInfoPtr with
          | nil => simp [checkJobFinished, observedState, hp, hal, hji]
          | cons info rest =>
            by_cases hterm : info.jobState = "failure" ∨ info.jobState = "error"
                ∨ info.jobState = "quit" ∨ info.jobState = "dead"
            · rcases hterm with h | h | h | h <;>
                simp [checkJobFinished, observedState, hp, hal, hji, h]
            · push_neg at hterm
              obtain ⟨h1, h2, h3, h4⟩ := hterm
              by_cases hs : info.jobState = "success" <;>
                simp [checkJobFinished, observedState, hp, hal, hji, h1, h2, h3, h4, hs]
      · simp [checkJobFinished, observedState, hp]

lemma checkJobFinished_halt_of_terminal (jobId : Int) (q : QueryResult)
    (resp : JobGetIterResponse) (attrs : JobAttributesList)
    (info : JobInfoType) (rest : List JobInfoType)
    (hqe : q.queryErr = false)
    (hresp : q.response = some resp)
    (hpassed : resp.Result.ResultStatusAttr = "passed")
    (hattrs : resp.Result.AttributesListPtr = some attrs)
    (hinfos : attrs.JobInfoPtr = info :: rest)
    (hterm : info.jobState = "failure" ∨ info.jobState = "error" ∨
             info.jobState = "quit" ∨ info.jobState = "dead") :
    checkJobFinished jobId q = .halt (.jobFailed jobId info.jobState) := by
  rcases hterm with h | h | h | h <;>
    simp [checkJobFinished, hqe, hresp, hpassed, hattrs, hinfos, h]

/-! ### Claim theorems -/

/-- C1: for every poll of `checkForJobCompletion` where the job-status
query succeeds (result status "passed", attributes present) and the
observed job state is one of "failure", "error", "quit" or "dead",
`checkForJobCompletion` returns a non-nil error and performs no further
status queries, regardless of how much of the maximum wait budget (fuel)
remains. -/
theorem C1_terminal_state_halts_polling (jobId : Int) (queries : Nat → QueryResult)
    (fuel k : Nat) (resp : JobGetIterResponse) (attrs : JobAttributesList)
    (info : JobInfoType) (rest : List JobInfoType)
    (hreach : ∀ i, i < k → isRetryOutcome (checkJobFinished jobId (queries i)) = true)
    (hfuel : k ≤ fuel)
    (hqe : (queries k).queryErr = false)
    (hresp : (queries k).response = some resp)
    (hpassed : resp.Result.ResultStatusAttr = "passed")
    (hattrs : resp.Result.AttributesListPtr = some attrs)
    (hinfos : attrs.JobInfoPtr = info :: rest)
    (hterm : info.jobState = "failure" ∨ info.jobState = "error" ∨
             info.jobState = "quit" ∨ info.jobState = "dead") :
    (checkForJobCompletion jobId queries fuel).1 = some (.jobFailedToComplete jobId) ∧
    (checkForJobCompletion jobId queries fuel).2 = k + 1 := by
  have hhalt := checkJobFinished_halt_of_terminal jobId (queries k) resp attrs info rest
    hqe hresp hpassed hattrs hinfos hterm
  have hr := retryNotify_halt jobId k fuel queries _ hreach hfuel hhalt
  unfold checkForJobCompletion
  rw [hr]
  simp

theorem C1_witness :
    (checkForJobCompletion 5 (fun _ => failureResp) 4).1 = some (.jobFailedToComplete 5) ∧
    (checkForJobCompletion 5 (fun _ => failureResp) 4).2 = 1 :=
  C1_terminal_state_halts_polling 5 (fun _ => failureResp) 4 0
    (stateRespBody "failure") { JobInfoPtr := [{ jobState := "failure" }] }
    { jobState := "failure" } []
    (fun i hi => absurd hi (Nat.not_lt_zero i)) (Nat.zero_le 4)
    rfl rfl rfl rfl rfl (Or.inl rfl)

/-- C2 counterexample: the claim asserts the budget-exhausted error is
distinguishable from the terminal-failure error and that the latter
carries the observed job state; in the code both cases return the
identical generic error carrying only the job id.  Job 9 observed
terminal state "failure" on its first poll in the first run and stayed
"running" until the budget ran out in the second, yet the returned
errors are equal (and carry no job state). -/
theorem C2_counterexample_indistinguishable :
    (checkForJobCompletion 9 (fun _ => failureResp) 5).1 =
      (checkForJobCompletion 9 (fun _ => runningResp) 5).1 ∧
    (checkForJobCompletion 9 (fun _ => failureResp) 5).1 =
      some (.jobFailedToComplete 9) := by decide

/-- C2 (amended): whether the retry loop ends with a permanent
(terminal-failure) error or with its budget exhausted,
`checkForJobCompletion` returns the same generic error naming only the
job id ("job Id %d failed to complete successfully"); the observed job
state lives only in the intermediate permanent error, which is
discarded. -/
theorem C2_amended_uniform_error (jobId : Int) (q₁ q₂ : Nat → QueryResult)
    (f₁ f₂ : Nat) (e₁ e₂ : PollError)
    (h₁ : (retryNotify jobId f₁ q₁).1 = .permanentErr e₁)
    (h₂ : (retryNotify jobId f₂ q₂).1 = .exhausted e₂) :
    (checkForJobCompletion jobId q₁ f₁).1 = some (.jobFailedToComplete jobId) ∧
    (checkForJobCompletion jobId q₁ f₁).1 = (checkForJobCompletion jobId q₂ f₂).1 := by
  rcases hr1 : retryNotify jobId f₁ q₁ with ⟨r1, n1⟩
  rcases hr2 : retryNotify jobId f₂ q₂ with ⟨r2, n2⟩
  rw [hr1] at h₁
  rw [hr2] at h₂
  simp only at h₁ h₂
  subst h₁
  subst h₂
  unfold checkForJobCompletion
  rw [hr1, hr2]
  simp

theorem C2_witness :
    (checkForJobCompletion 9 (fun _ => failureResp) 5).1 =
      some (.jobFailedToComplete 9) ∧
    (checkForJobCompletion 9 (fun _ => failureResp) 5).1 =
      (checkForJobCompletion 9 (fun _ => runningResp) 5).1 :=
  C2_amended_uniform_error 9 (fun _ => failureResp) (fun _ => runningResp) 5 5
    (.jobFailed 9 "failure") (.notYetCompleted 9 "running") (by decide) (by decide)

/-- C3: `checkForJobCompletion` returns nil only when its last status
query observed job state "success" (in particular never when the last
observed state was a terminal failure state), and every status query
before the last one had a retryable outcome — so no further query is
issued after observing any terminal state. -/
theorem C3_never_success_after_terminal (jobId : Int)
    (queries : Nat → QueryResult) (fuel : Nat) :
    ((checkForJobCompletion jobId queries fuel).1 = none →
      observedState (queries ((checkForJobCompletion jobId queries fuel).2 - 1)) =
        some "success") ∧
    (∀ i, i + 1 < (checkForJobCompletion jobId queries fuel).2 →
      isRetryOutcome (checkJobFinished jobId (queries i)) = true) := by
  obtain ⟨hn, hiff⟩ := checkForJobCompletion_eq_retryNotify jobId queries fuel
  obtain ⟨hinv1, hinv2⟩ := retryNotify_inv jobId fuel queries
  constructor
  · intro hnone
    rw [hn]
    exact (checkJobFinished_ok_iff jobId _).1 (hinv2 (hiff.1 hnone))
  · intro i hi
    rw [hn] at hi
    exact hinv1 i hi

/-- A two-phase stream used to witness C3: one "running" poll, then
"success". -/
def altQueries : Nat → QueryResult :=
  fun i => if i = 0 then runningResp else successResp

theorem C3_witness :
    observedState (altQueries ((checkForJobCompletion 3 altQueries 4).2 - 1)) =
      some "success" ∧
    isRetryOutcome (checkJobFinished 3 (altQueries 0)) = true :=
  ⟨(C3_never_success_after_terminal 3 altQueries 4).1 (by decide),
   (C3_never_success_after_terminal 3 altQueries 4).2 0 (by decide)⟩

/-- C4: for a job whose first status query succeeds and reports job
state "success", `checkForJobCompletion` returns nil and performs
exactly one status query, whatever the remaining budget. -/
theorem C4_first_query_success (jobId : Int) (queries : Nat → QueryResult)
    (fuel : Nat) (h : observedState (queries 0) = some "success") :
    checkForJobCompletion jobId queries fuel = (none, 1) := by
  have hok : checkJobFinished jobId (queries 0) = .ok :=
    (checkJobFinished_ok_iff jobId _).2 h
  have hr := retryNotify_ok jobId 0 fuel queries
    (fun i hi => absurd hi (Nat.not_lt_zero i)) (Nat.zero_le fuel) hok
  unfold checkForJobCompletion
  rw [hr]

theorem C4_witness : checkForJobCompletion 11 (fun _ => successResp) 7 = (none, 1) :=
  C4_first_query_success 11 (fun _ => successResp) 7 (by decide)

/-- C5: when `NewZapiAsyncResult` fails, `WaitForAsyncResponse` returns
that very error and issues no status query; when the extracted status is
"failed" it returns the error carrying the extracted error code, again
without polling. -/
theorem C5_submission_failure_no_polling (e : ZapiError) (r : ZapiAsyncResult)
    (queries : Nat → QueryResult) (fuel : Nat)
    (hfail : r.status = "failed") :
    WaitForAsyncResponse (.error e) queries fuel = (some (.extraction e), 0) ∧
    WaitForAsyncResponse (.ok r) queries fuel = (some (.resultFailed r.errorCode), 0) := by
  refine ⟨rfl, ?_⟩
  simp [WaitForAsyncResponse, hfail]

theorem C5_witness :
    WaitForAsyncResponse (.error { status := "failed", reason := "x", code := "13" })
        (fun _ => successResp) 3 =
      (some (.extraction { status := "failed", reason := "x", code := "13" }), 0) ∧
    WaitForAsyncResponse (.ok { jobId := 3, status := "failed", errorCode := 22 })
        (fun _ => successResp) 3 =
      (some (.resultFailed 22), 0) :=
  C5_submission_failure_no_polling { status := "failed", reason := "x", code := "13" }
    { jobId := 3, status := "failed", errorCode := 22 } (fun _ => successResp) 3 rfl

/-- C6: a poll whose status query itself errored (with a non-nil
response), or whose result is not "passed", or lacks the attributes
list, or whose observed job state is neither "success" nor a terminal
failure state, has a retryable (non-permanent) outcome; and if every
poll is retryable the loop keeps querying until the budget is exhausted
and then fails. -/
theorem C6_nonterminal_retryable (jobId : Int) (q : QueryResult)
    (resp : JobGetIterResponse) (queries : Nat → QueryResult) (fuel : Nat)
    (hresp : q.response = some resp)
    (hcase : q.queryErr = true
      ∨ resp.Result.ResultStatusAttr ≠ "passed"
      ∨ resp.Result.AttributesListPtr = none
      ∨ (∃ attrs info rest, resp.Result.AttributesListPtr = some attrs ∧
          attrs.JobInfoPtr = info :: rest ∧
          info.jobState ≠ "success" ∧ info.jobState ≠ "failure" ∧
          info.jobState ≠ "error" ∧ info.jobState ≠ "quit" ∧ info.jobState ≠ "dead"))
    (hall : ∀ i, isRetryOutcome (checkJobFinished jobId (queries i)) = true) :
    isRetryOutcome (checkJobFinished jobId q) = true ∧
    checkForJobCompletion jobId queries fuel =
      (some (.jobFailedToComplete jobId), fuel + 1) := by
  constructor
  · cases hqe : q.queryErr with
    | true => simp [checkJobFinished, hresp, hqe, isRetryOutcome]
    | false =>
      rcases hcase with h | h | h | ⟨attrs, info, rest, ha, hi, hs1, hs2, hs3, hs4, hs5⟩
      · rw [hqe] at h; exact absurd h (by simp)
      · simp [checkJobFinished, hresp, hqe, h, isRetryOutcome]
      · by_cases hp : resp.Result.ResultStatusAttr = "passed" <;>
          simp [checkJobFinished, hresp, hqe, hp, h, isRetryOutcome]
      · by_cases hp : resp.Result.ResultStatusAttr = "passed" <;>
          simp [checkJobFinished, hresp, hqe, hp, ha, hi, hs1, hs2, hs3, hs4, hs5,
            isRetryOutcome]
  · obtain ⟨e, he⟩ := retryNotify_exhausted jobId fuel queries
      (fun i _ => hall i)
    unfold checkForJobCompletion
    rw [he]

theorem C6_witness :
    isRetryOutcome (checkJobFinished 2
      { response := some (stateRespBody "running"), queryErr := true }) = true ∧
    checkForJobCompletion 2 (fun _ => runningResp) 2 =
      (some (.jobFailedToComplete 2), 3) :=
  C6_nonterminal_retryable 2
    { response := some (stateRespBody "running"), queryErr := true }
    (stateRespBody "running") (fun _ => runningResp) 2
    rfl (Or.inl rfl)
    (fun _ => (by decide : isRetryOutcome (checkJobFinished 2 runningResp) = true))

/-- C7: when the extracted submission status is "succeeded",
`WaitForAsyncResponse` returns nil immediately and issues no status
query. -/
theorem C7_sync_success_no_polling (r : ZapiAsyncResult)
    (queries : Nat → QueryResult) (fuel : Nat)
    (h : r.status = "succeeded") :
    WaitForAsyncResponse (.ok r) queries fuel = (none, 0) := by
  simp [WaitForAsyncResponse, h]

theorem C7_witness :
    WaitForAsyncResponse (.ok { jobId := 1, status := "succeeded", errorCode := 0 })
      (fun _ => failureResp) 4 = (none, 0) :=
  C7_sync_success_no_polling { jobId := 1, status := "succeeded", errorCode := 0 }
    (fun _ => failureResp) 4 rfl

/-- C9: any extracted submission status other than "in_progress" and
"failed" — including the empty string and unrecognized statuses — makes
`WaitForAsyncResponse` return nil without issuing any status query. -/
theorem C9_unknown_status_silent_success (r : ZapiAsyncResult)
    (queries : Nat → QueryResult) (fuel : Nat)
    (h1 : r.status ≠ "in_progress") (h2 : r.status ≠ "failed") :
    WaitForAsyncResponse (.ok r) queries fuel = (none, 0) := by
  simp [WaitForAsyncResponse, h1, h2]

theorem C9_witness :
    WaitForAsyncResponse (.ok { jobId := 8, status := "", errorCode := 99 })
      (fun _ => failureResp) 4 = (none, 0) :=
  C9_unknown_status_silent_success { jobId := 8, status := "", errorCode := 99 }
    (fun _ => failureResp) 4 (by decide) (by decide)

/-- A "passed" response whose job-info slice is empty, so that the
unchecked `JobInfoPtr[0]` read is out of range. -/
def emptyInfoResp : QueryResult :=
  { response := some { Result := { ResultStatusAttr := "passed",
                                   AttributesListPtr := some { JobInfoPtr := [] } } },
    queryErr := false }

/-- C10: the per-poll check is total only under the precondition that an
erroring query still comes with a non-nil response and that a "passed"
response with a non-nil attributes list has at least one job-info entry:
the abort branch (Go runtime panic) is reached for a nil response with a
query error and for a passed response with an empty job-info slice,
while under the precondition no poll ever aborts. -/
theorem C10_poll_totality_precondition :
    checkJobFinished 4 { response := none, queryErr := true } = .abort ∧
    checkJobFinished 4 emptyInfoResp = .abort ∧
    (∀ (jobId : Int) (q : QueryResult) (resp : JobGetIterResponse),
      q.response = some resp →
      (∀ attrs, resp.Result.AttributesListPtr = some attrs → attrs.JobInfoPtr ≠ []) →
      checkJobFinished jobId q ≠ .abort) := by
  refine ⟨by decide, by decide, ?_⟩
  intro jobId q resp hresp hwf
  cases hqe : q.queryErr with
  | true => simp [checkJobFinished, hresp, hqe]
  | false =>
    by_cases hp : resp.Result.ResultStatusAttr = "passed"
    · cases hal : resp.Result.AttributesListPtr with
      | none => simp [checkJobFinished, hresp, hqe, hp, hal]
      | some attrs =>
        cases hji : attrs.JobInfoPtr with
        | nil => exact absurd hji (hwf attrs hal)
        | cons info rest =>
          by_cases hterm : info.jobState = "failure" ∨ info.jobState = "error"
              ∨ info.jobState = "quit" ∨ info.jobState = "dead"
          · rcases hterm with h | h | h | h <;>
              simp [checkJobFinished, hresp, hqe, hp, hal, hji, h]
          · push_neg at hterm
            obtain ⟨h1, h2, h3, h4⟩ := hterm
            by_cases hs : info.jobState = "success" <;>
              simp [checkJobFinished, hresp, hqe, hp, hal, hji, h1, h2, h3, h4, hs]
    · simp [checkJobFinished, hresp, hqe, hp]

theorem C10_witness : checkJobFinished 1 successResp ≠ .abort :=
  C10_poll_totality_precondition.2.2 1 successResp (stateRespBody "success") rfl
    (fun attrs h => by
      simp only [stateRespBody, Option.some.injEq] at h
      subst h
      decide)

lemma Second_pos : (0 : ℚ) < ((Second : Int) : ℚ) := by
  norm_num [Second, Millisecond]

lemma nominalInterval_asyncResponseBackoff (t : Int) :
    ∀ (n : Nat), ((Second : Int) : ℚ) * 2 ^ n ≤
      (((asyncResponseBackoff t).MaxInterval : Int) : ℚ) →
    nominalInterval (asyncResponseBackoff t) n = ((Second : Int) : ℚ) * 2 ^ n := by
  intro n
  induction n with
  | zero =>
    intro _
    show ((((1 : Int) * Second : Int)) : ℚ) = _
    push_cast
    ring
  | succ n ih =>
    intro hcap
    have hpow : (0 : ℚ) < 2 ^ n := pow_pos (by norm_num) n
    have hstep : ((Second : Int) : ℚ) * 2 ^ n ≤ ((Second : Int) : ℚ) * 2 ^ (n + 1) := by
      rw [pow_succ]
      nlinarith [Second_pos]
    rw [nominalInterval, ih (le_trans hstep hcap)]
    have hmul : (asyncResponseBackoff t).Multiplier = 2 := rfl
    rw [hmul, min_eq_left]
    · rw [pow_succ]
      ring
    · calc ((Second : Int) : ℚ) * 2 ^ n * 2
          = ((Second : Int) : ℚ) * 2 ^ (n + 1) := by rw [pow_succ]; ring
        _ ≤ _ := hcap

/-- C8: `asyncResponseBackoff` configures the retry policy with initial
interval 1 s, multiplier 2, randomization factor 0.1 and maximum elapsed
time equal to the caller-supplied maximum wait duration; consequently,
while the nominal interval stays below the (library-default) interval
cap, the n-th retry delay drawn with random sample `ρ ∈ [0,1]` lies in
the geometric band `[1s·2ⁿ·(1−0.1), 1s·2ⁿ·(1+0.1)]`. -/
theorem C8_backoff_configuration (t : Int) (n : Nat) (ρ : ℚ)
    (h0 : 0 ≤ ρ) (h1 : ρ ≤ 1)
    (hcap : ((Second : Int) : ℚ) * 2 ^ n ≤
      (((asyncResponseBackoff t).MaxInterval : Int) : ℚ)) :
    (asyncResponseBackoff t).InitialInterval = Second ∧
    (asyncResponseBackoff t).Multiplier = 2 ∧
    (asyncResponseBackoff t).RandomizationFactor = 1 / 10 ∧
    (asyncResponseBackoff t).MaxElapsedTime = t ∧
    nominalInterval (asyncResponseBackoff t) n = ((Second : Int) : ℚ) * 2 ^ n ∧
    ((Second : Int) : ℚ) * 2 ^ n * (1 - 1 / 10) ≤
      getRandomValueFromInterval (asyncResponseBackoff t).RandomizationFactor ρ
        (nominalInterval (asyncResponseBackoff t) n) ∧
    getRandomValueFromInterval (asyncResponseBackoff t).RandomizationFactor ρ
        (nominalInterval (asyncResponseBackoff t) n) ≤
      ((Second : Int) : ℚ) * 2 ^ n * (1 + 1 / 10) := by
  have hnom := nominalInterval_asyncResponseBackoff t n hcap
  have hpow : (0 : ℚ) < 2 ^ n := pow_pos (by norm_num) n
  have hv : (0 : ℚ) ≤ ((Second : Int) : ℚ) * 2 ^ n := by nlinarith [Second_pos]
  have hrand : (asyncResponseBackoff t).RandomizationFactor = 1 / 10 := rfl
  refine ⟨one_mul Second, rfl, rfl, rfl, hnom, ?_, ?_⟩
  · rw [hnom, hrand]
    unfold getRandomValueFromInterval
    nlinarith [mul_nonneg h0 hv]
  · rw [hnom, hrand]
    unfold getRandomValueFromInterval
    nlinarith [mul_nonneg (by linarith : (0 : ℚ) ≤ 1 - ρ) hv]

theorem C8_witness :
    (asyncResponseBackoff (30 * Second)).InitialInterval = Second ∧
    (asyncResponseBackoff (30 * Second)).Multiplier = 2 ∧
    (asyncResponseBackoff (30 * Second)).RandomizationFactor = 1 / 10 ∧
    (asyncResponseBackoff (30 * Second)).MaxElapsedTime = 30 * Second ∧
    nominalInterval (asyncResponseBackoff (30 * Second)) 3 =
      ((Second : Int) : ℚ) * 2 ^ 3 ∧
    ((Second : Int) : ℚ) * 2 ^ 3 * (1 - 1 / 10) ≤
      getRandomValueFromInterval
        (asyncResponseBackoff (30 * Second)).RandomizationFactor (1 / 2)
        (nominalInterval (asyncResponseBackoff (30 * Second)) 3) ∧
    getRandomValueFromInterval
        (asyncResponseBackoff (30 * Second)).RandomizationFactor (1 / 2)
        (nominalInterval (asyncResponseBackoff (30 * Second)) 3) ≤
      ((Second : Int) : ℚ) * 2 ^ 3 * (1 + 1 / 10) :=
  C8_backoff_configuration (30 * Second) 3 (1 / 2) (by norm_num) (by norm_num)
    (by norm_num [asyncResponseBackoff, NewExponentialBackOff, Second, Millisecond])
